import Mathlib

set_option maxRecDepth 8000

/-!
Verification development for the dxf_to_svg renderer (src/src/lib.rs).

Modelling conventions:
* Rust `f64` values are modelled exactly. Finite values are rationals (`ℚ`);
  the special values +inf, -inf and NaN, which the bounds pipeline produces
  for empty input, are modelled by the four-constructor type `FP` whose
  arithmetic follows the IEEE-754 rules exercised by this code. Signed zero
  is not modelled (a zero quotient is `FP.fin 0`); no code path relevant to
  a claim distinguishes `0.0` from `-0.0`.
* Angles handled by `is_angle_in_arc` and by the Arc arm's flag computation
  are rational multiples of π. They are represented by their coefficient:
  a Lean value `q : ℚ` stands for the angle `q * π` radians, so the Rust
  constant `2.0 * PI` becomes the coefficient `2`, and `PI` becomes `1`.
  `degToRad`, `fmodReal` and `realTrunc` state the radian-level semantics
  over `ℝ` and are related to the coefficient computations by theorem.
* Rust `%` on `f64` is a truncating remainder (sign of the dividend);
  it is modelled by `rustRem` built on `ratTrunc` (truncation toward zero).
* The entity union is restricted to the kinds the claims under verification
  mention or contrast with (Arc, Ellipse and Helix rendering need `cos`,
  `sin` and `sqrt` of arbitrary inputs, which have no exact executable
  form; no claim depends on evaluating those arms through the pipeline —
  the Arc arm's flag computation, which is trig-free, is embedded
  separately as `arcSweepFlag` / `arcLargeArcFlag`).
* Rust string formatting: `{:.3}` is modelled by `fmt3` (fixed three
  decimals, ties to even); `{}` on `f64` is modelled by `fmtFP` / `fmtQ`
  ("NaN", "inf", "-inf", integers without a decimal point, terminating
  fractions digit by digit). Every concrete input evaluated by a theorem
  formats identically in Rust and in this model.
-/

/-- Model of `f64`: finite rationals plus the IEEE special values. -/
inductive FP where
  | nan : FP
  | inf : FP
  | ninf : FP
  | fin : ℚ → FP
deriving DecidableEq

/-- IEEE negation. -/
def FP.neg : FP → FP
  | .nan => .nan
  | .inf => .ninf
  | .ninf => .inf
  | .fin q => .fin (-q)

/-- IEEE addition (the cases exercised by the bounds pipeline). -/
def FP.add : FP → FP → FP
  | .nan, _ => .nan
  | _, .nan => .nan
  | .inf, .ninf => .nan
  | .ninf, .inf => .nan
  | .inf, _ => .inf
  | _, .inf => .inf
  | .ninf, _ => .ninf
  | _, .ninf => .ninf
  | .fin a, .fin b => .fin (a + b)

/-- IEEE subtraction, `a - b = a + (-b)`. -/
def FP.sub (a b : FP) : FP := FP.add a (FP.neg b)

/-- IEEE multiplication; `±inf * 0 = NaN`. -/
def FP.mul : FP → FP → FP
  | .nan, _ => .nan
  | _, .nan => .nan
  | .inf, .inf => .inf
  | .inf, .ninf => .ninf
  | .ninf, .inf => .ninf
  | .ninf, .ninf => .inf
  | .inf, .fin a => if a = 0 then .nan else if 0 < a then .inf else .ninf
  | .fin a, .inf => if a = 0 then .nan else if 0 < a then .inf else .ninf
  | .ninf, .fin a => if a = 0 then .nan else if 0 < a then .ninf else .inf
  | .fin a, .ninf => if a = 0 then .nan else if 0 < a then .ninf else .inf
  | .fin a, .fin b => .fin (a * b)

/-- IEEE division; `±inf / ±inf = NaN`, finite / ±inf = 0 (sign of zero
not modelled), finite / 0 = signed infinity, 0/0 = NaN. -/
def FP.div : FP → FP → FP
  | .nan, _ => .nan
  | _, .nan => .nan
  | .inf, .inf => .nan
  | .inf, .ninf => .nan
  | .ninf, .inf => .nan
  | .ninf, .ninf => .nan
  | .inf, .fin a => if 0 ≤ a then .inf else .ninf
  | .ninf, .fin a => if 0 ≤ a then .ninf else .inf
  | .fin _, .inf => .fin 0
  | .fin _, .ninf => .fin 0
  | .fin a, .fin b =>
    if b = 0 then (if a = 0 then .nan else if 0 < a then .inf else .ninf)
    else .fin (a / b)

/-- Rust `f64::min`: if one argument is NaN the other is returned. -/
def FP.minF : FP → FP → FP
  | .nan, y => y
  | x, .nan => x
  | .ninf, _ => .ninf
  | _, .ninf => .ninf
  | .inf, y => y
  | x, .inf => x
  | .fin a, .fin b => .fin (min a b)

/-- Rust `f64::max`: if one argument is NaN the other is returned. -/
def FP.maxF : FP → FP → FP
  | .nan, y => y
  | x, .nan => x
  | .inf, _ => .inf
  | _, .inf => .inf
  | .ninf, y => y
  | x, .ninf => x
  | .fin a, .fin b => .fin (max a b)

/-- `struct Bounds` from the source. -/
structure Bounds where
  min_x : FP
  min_y : FP
  max_x : FP
  max_y : FP
deriving DecidableEq

/-- `Bounds::new()`: the degenerate empty state (+inf, +inf, -inf, -inf). -/
def Bounds.new : Bounds := ⟨.inf, .inf, .ninf, .ninf⟩

/-- `Bounds::update(x, y)`: fold one point into the running min/max. -/
def Bounds.update (b : Bounds) (x y : ℚ) : Bounds :=
  ⟨FP.minF b.min_x (.fin x), FP.minF b.min_y (.fin y),
   FP.maxF b.max_x (.fin x), FP.maxF b.max_y (.fin y)⟩

/-- `Bounds::with_padding(padding_percent)`. -/
def Bounds.with_padding (b : Bounds) (padding_percent : ℚ) : Bounds :=
  let width := FP.sub b.max_x b.min_x
  let height := FP.sub b.max_y b.min_y
  let padding_x := FP.mul width (.fin padding_percent)
  let padding_y := FP.mul height (.fin padding_percent)
  ⟨FP.sub b.min_x padding_x, FP.sub b.min_y padding_y,
   FP.add b.max_x padding_x, FP.add b.max_y padding_y⟩

/-- Truncation toward zero on `ℚ` (how Rust `%` chooses its quotient). -/
def ratTrunc (x : ℚ) : ℤ := if 0 ≤ x then ⌊x⌋ else -⌊-x⌋

/-- Rust `%` on `f64`, exactly: `a - m * trunc (a / m)`. -/
def rustRem (a m : ℚ) : ℚ := a - m * (ratTrunc (a / m) : ℤ)

/-- True mathematical mod (normalisation into `[0, m)` for `m > 0`),
as the spec's word "normalizes into [0, 2π)" describes. -/
def floorMod (a m : ℚ) : ℚ := a - m * (⌊a / m⌋ : ℤ)

/-- `is_angle_in_arc(angle, start, end)` from the source, with angles in
units of π (`2.0 * PI` is the coefficient `2`). The `%` is Rust's
truncating remainder. -/
def is_angle_in_arc (angle start endA : ℚ) : Bool :=
  let angle1 := rustRem angle 2
  let start1 := rustRem start 2
  let end1 := rustRem endA 2
  if start1 > end1 then
    let end2 := end1 + 2
    let angle2 := if angle1 < start1 then angle1 + 2 else angle1
    decide (angle2 ≥ start1 ∧ angle2 ≤ end2)
  else
    decide (angle1 ≥ start1 ∧ angle1 ≤ end1)

/-- The algorithm the claim describes: genuinely normalise all three angles
into `[0, 2π)` (units of π, so into `[0, 2)`), then the same branch. -/
def is_angle_in_arc_spec (angle start endA : ℚ) : Bool :=
  let angle1 := floorMod angle 2
  let start1 := floorMod start 2
  let end1 := floorMod endA 2
  if start1 > end1 then
    let end2 := end1 + 2
    let angle2 := if angle1 < start1 then angle1 + 2 else angle1
    decide (angle2 ≥ start1 ∧ angle2 ≤ end2)
  else
    decide (angle1 ≥ start1 ∧ angle1 ≤ end1)

/-- `to_radians` in units of π: degrees `d` become `d/180` (times π). -/
def toRadCoeff (deg : ℚ) : ℚ := deg / 180

/-- Arc arm, sweep flag: `if end_angle > start_angle { 1 } else { 0 }`
(angles in radians; units of π preserve the comparison). -/
def arcSweepFlag (startDeg endDeg : ℚ) : Nat :=
  if toRadCoeff startDeg < toRadCoeff endDeg then 1 else 0

/-- Arc arm, large-arc flag:
`if (end_angle - start_angle).abs() % (2.0*PI) > PI { 1 } else { 0 }`
in units of π: `|Δ| rem 2 > 1`. -/
def arcLargeArcFlag (startDeg endDeg : ℚ) : Nat :=
  if 1 < rustRem |toRadCoeff endDeg - toRadCoeff startDeg| 2 then 1 else 0

/-- Truncation toward zero on `ℝ` (statement-side only). -/
noncomputable def realTrunc (x : ℝ) : ℝ :=
  if 0 ≤ x then ((⌊x⌋ : ℤ) : ℝ) else ((-⌊-x⌋ : ℤ) : ℝ)

/-- Rust `%` on `f64` stated over `ℝ` (statement-side only). -/
noncomputable def fmodReal (x y : ℝ) : ℝ := x - y * realTrunc (x / y)

/-- `to_radians`: degrees to radians, over `ℝ` (statement-side only). -/
noncomputable def degToRad (d : ℚ) : ℝ := (d : ℝ) * Real.pi / 180

/-- A 2D point; the source reads only the `x` and `y` fields of `dxf::Point`. -/
structure Pt where
  x : ℚ
  y : ℚ
deriving DecidableEq

/-- `Line` payload. -/
structure LineE where
  p1 : Pt
  p2 : Pt
deriving DecidableEq

/-- `Circle` payload. -/
structure CircleE where
  center : Pt
  radius : ℚ
deriving DecidableEq

/-- `LwPolyline` payload (vertex x/y). -/
structure LwPolylineE where
  vertices : List Pt
deriving DecidableEq

/-- `Polyline` payload (`vertices()` locations). -/
structure PolylineE where
  vertices : List Pt
deriving DecidableEq

/-- `Spline` payload (control points). -/
structure SplineE where
  control_points : List Pt
deriving DecidableEq

/-- `Text` payload. -/
structure TextE where
  location : Pt
  value : String
deriving DecidableEq

/-- `ModelPoint` payload. -/
structure ModelPointE where
  location : Pt
deriving DecidableEq

/-- The four-corner payload shared by `Face3D`, `Solid` and `Trace`. -/
structure QuadE where
  first_corner : Pt
  second_corner : Pt
  third_corner : Pt
  fourth_corner : Pt
deriving DecidableEq

/-- `Leader` payload. -/
structure LeaderE where
  vertices : List Pt
deriving DecidableEq

/-- `Insert` payload. -/
structure InsertE where
  name : String
  location : Pt
  x_scale_factor : ℚ
  y_scale_factor : ℚ
deriving DecidableEq

/-- `Shape` payload. -/
structure ShapeE where
  location : Pt
  size : ℚ
  rotation_angle : ℚ
deriving DecidableEq

/-- `RotatedDimension` payload; `text` is `dimension_base.text`. -/
structure RotatedDimensionE where
  definition_point_2 : Pt
  definition_point_3 : Pt
  insertion_point : Pt
  text : String
deriving DecidableEq

/-- The entity union (`EntityType`), restricted to the kinds the claims
exercise; `other` stands for any unhandled kind (both match statements in
the source send it to their default arm). Arc, Ellipse and Helix are kept
out of the union because evaluating their arms needs `cos`/`sin`/`sqrt`
(see the header comment); the Arc flag computation is embedded separately. -/
inductive EntityType where
  | line : LineE → EntityType
  | circle : CircleE → EntityType
  | lwPolyline : LwPolylineE → EntityType
  | polyline : PolylineE → EntityType
  | spline : SplineE → EntityType
  | text : TextE → EntityType
  | modelPoint : ModelPointE → EntityType
  | face3D : QuadE → EntityType
  | solid : QuadE → EntityType
  | leader : LeaderE → EntityType
  | trace : QuadE → EntityType
  | shape : ShapeE → EntityType
  | insert : InsertE → EntityType
  | rotatedDimension : RotatedDimensionE → EntityType
  | other : String → EntityType
deriving DecidableEq

/-- An entity: the common header (color name, layer) plus the payload. -/
structure Entity where
  color_name : String
  layer : String
  specific : EntityType
deriving DecidableEq

/-- `SvgOptions` from the source. -/
structure SvgOptions where
  use_bounds : Bool
  padding : ℚ
  background_color : String
  stroke_width : ℚ
  default_color : String
deriving DecidableEq

/-- `SvgOptions::default()` (0.1 padding modelled as the exact 1/10). -/
def defaultOptions : SvgOptions :=
  ⟨true, 1/10, "white", 1, "black"⟩

/-- Fold a vertex list into the bounds (the `for vertex in ...` loops). -/
def updatePts (b : Bounds) (ps : List Pt) : Bounds :=
  ps.foldl (fun b p => b.update p.x p.y) b

/-- One iteration of the `calculate_bounds` match. The default arm — which
in the source receives Spline, Insert, RotatedDimension and every other
unlisted kind — leaves the bounds untouched. -/
def boundsStep (b : Bounds) (e : Entity) : Bounds :=
  match e.specific with
  | .line l => (b.update l.p1.x l.p1.y).update l.p2.x l.p2.y
  | .circle c =>
    (b.update (c.center.x - c.radius) (c.center.y - c.radius)).update
      (c.center.x + c.radius) (c.center.y + c.radius)
  | .lwPolyline lw => updatePts b lw.vertices
  | .polyline pl => updatePts b pl.vertices
  | .text t => b.update t.location.x t.location.y
  | .modelPoint p => b.update p.location.x p.location.y
  | .face3D f =>
    (((b.update f.first_corner.x f.first_corner.y).update
        f.second_corner.x f.second_corner.y).update
        f.third_corner.x f.third_corner.y).update
        f.fourth_corner.x f.fourth_corner.y
  | .solid s =>
    (((b.update s.first_corner.x s.first_corner.y).update
        s.second_corner.x s.second_corner.y).update
        s.third_corner.x s.third_corner.y).update
        s.fourth_corner.x s.fourth_corner.y
  | .leader l => updatePts b l.vertices
  | .trace t =>
    (((b.update t.first_corner.x t.first_corner.y).update
        t.second_corner.x t.second_corner.y).update
        t.third_corner.x t.third_corner.y).update
        t.fourth_corner.x t.fourth_corner.y
  | .shape s =>
    ((b.update s.location.x s.location.y).update
      (s.location.x + s.size) (s.location.y + s.size)).update
      (s.location.x - s.size) (s.location.y - s.size)
  | _ => b

/-- `calculate_bounds` unrolled from its starting accumulator. -/
def calculate_bounds_from (b : Bounds) : List Entity → Bounds
  | [] => b
  | e :: rest => calculate_bounds_from (boundsStep b e) rest

/-- `calculate_bounds(entities)` from the source. -/
def calculate_bounds (entities : List Entity) : Bounds :=
  calculate_bounds_from Bounds.new entities

/-- `calculate_bounds(&entities).with_padding(options.padding)`. -/
def paddedBounds (entities : List Entity) (options : SvgOptions) : Bounds :=
  (calculate_bounds entities).with_padding options.padding

/-- `width = bounds.max_x - bounds.min_x`. -/
def contentWidth (b : Bounds) : FP := FP.sub b.max_x b.min_x

/-- `height = bounds.max_y - bounds.min_y`. -/
def contentHeight (b : Bounds) : FP := FP.sub b.max_y b.min_y

/-- `aspect_ratio = width / height`. -/
def aspectOf (b : Bounds) : FP := FP.div (contentWidth b) (contentHeight b)

/-- Fourth `viewBox` component: `1000.0 / aspect_ratio`. -/
def viewBoxH (b : Bounds) : FP := FP.div (.fin 1000) (aspectOf b)

/-- Transform scale x: `1000.0 / width`. -/
def scaleXOf (b : Bounds) : FP := FP.div (.fin 1000) (contentWidth b)

/-- Transform scale y: `-1000.0 / width` (Y flip, same magnitude as x). -/
def scaleYOf (b : Bounds) : FP := FP.div (.fin (-1000)) (contentWidth b)

/-- Transform translate x: `-bounds.min_x`. -/
def translateXOf (b : Bounds) : FP := FP.neg b.min_x

/-- Transform translate y: `-bounds.max_y`. -/
def translateYOf (b : Bounds) : FP := FP.neg b.max_y

/-- The four numbers of the background `<rect>`:
`x = bounds.min_x`, `y = -bounds.max_y`, `width`, `height`. -/
def bgRectVals (b : Bounds) : FP × FP × FP × FP :=
  (b.min_x, FP.neg b.max_y, contentWidth b, contentHeight b)


/-- Rust `str::replace` with a single-char pattern, over the char list. -/
def replaceCharList (c : Char) (r : List Char) : List Char → List Char
  | [] => []
  | a :: rest => (if a = c then r else [a]) ++ replaceCharList c r rest

/-- Rust `String::replace` with a single-char pattern. -/
def replaceChar (s : String) (c : Char) (r : String) : String :=
  String.mk (replaceCharList c r.data s.data)

/-- `escape_xml_text` from the source: the five sequential replacements,
ampersand first. -/
def escape_xml_text (text : String) : String :=
  replaceChar
    (replaceChar
      (replaceChar
        (replaceChar
          (replaceChar text '&' ("&amp;"))
          '<' ("&lt;"))
        '>' ("&gt;"))
      '"' ("&quot;"))
    '\x27' ("&apos;")

/-- ASCII whitespace (the inputs this development evaluates contain no
other whitespace, so this matches Rust's Unicode `str::trim`). -/
def isWsChar (c : Char) : Bool :=
  c = ' ' || c = '\n' || c = '\t' || c = '\r'

/-- Rust `str::trim`: strip leading and trailing whitespace. -/
def rustTrim (s : String) : String :=
  String.mk (((s.data.dropWhile isWsChar).reverse.dropWhile isWsChar).reverse)

/-- Does `pat` occur in the list (Rust `str::contains` with a literal)? -/
def containsList (pat : List Char) : List Char → Bool
  | [] => pat.isEmpty
  | c :: rest => pat.isPrefixOf (c :: rest) || containsList pat rest

/-- Rust `String::contains` with a literal pattern. -/
def strContainsSub (hay pat : String) : Bool :=
  containsList pat.data hay.data

/-- Number of positions where `pat` occurs (overlaps counted; used to count
marker-definition copies in an output document). -/
def countList (pat : List Char) : List Char → Nat
  | [] => 0
  | c :: rest => (if pat.isPrefixOf (c :: rest) then 1 else 0) + countList pat rest

/-- `Vec::join(" ")`. -/
def joinSp : List String → String
  | [] => ""
  | [s] => s
  | s :: rest => s ++ " " ++ joinSp rest

/-- Round to the nearest integer, ties to even (how Rust `{:.3}` rounds
the exact value; no tie arises at any input evaluated here). -/
def roundHalfEven (x : ℚ) : ℤ :=
  let f := ⌊x⌋
  let r := x - f
  if r < 1/2 then f
  else if 1/2 < r then f + 1
  else if f % 2 = 0 then f else f + 1

/-- Rust `{:.3}` on `f64`: always three decimals. -/
def fmt3 (q : ℚ) : String :=
  let n := roundHalfEven (q * 1000)
  let s := if n < 0 then "-" else ""
  let m := n.natAbs
  let frac := m % 1000
  let fracStr :=
    if frac < 10 then "00" ++ toString frac
    else if frac < 100 then "0" ++ toString frac
    else toString frac
  s ++ toString (m / 1000) ++ "." ++ fracStr

/-- Fractional digits of `r ∈ [0,1)`, most significant first, stopping at
termination (fuel-bounded; model of Rust's shortest-roundtrip `{}` output,
exact for every value this development formats). -/
def fracDigitsAux : Nat → ℚ → String
  | 0, _ => ""
  | fuel + 1, r =>
    if r = 0 then ""
    else
      let r10 := r * 10
      let d := ⌊r10⌋
      toString d ++ fracDigitsAux fuel (r10 - d)

/-- Rust `{}` (Display) on a finite `f64`: integers print without a point,
fractions print their terminating decimal expansion. -/
def fmtQ (q : ℚ) : String :=
  if q.den = 1 then toString q.num
  else
    let s := if q < 0 then "-" else ""
    let a := |q|
    let ip := ⌊a⌋
    s ++ toString ip ++ "." ++ fracDigitsAux 17 (a - (ip : ℚ))

/-- Rust `{}` (Display) on `f64` including the special values.
(`-0.0` prints as "-0" in Rust; signed zero is not modelled, see header.) -/
def fmtFP : FP → String
  | .nan => "NaN"
  | .inf => "inf"
  | .ninf => "-inf"
  | .fin q => fmtQ q

/-- One `{:.3},{:.3}` vertex. -/
def fmtPt (p : Pt) : String := fmt3 p.x ++ "," ++ fmt3 p.y

/-- `format!("stroke=\"{}\" stroke-width=\"{}\"", color, options.stroke_width)`. -/
def strokeAttrStr (options : SvgOptions) (color : String) : String :=
  "stroke=\"" ++ color ++ "\" stroke-width=\"" ++ fmtQ options.stroke_width ++ "\""

/-- The `<svg ...>` open tag plus transform group emitted when
`options.use_bounds` holds (exact text of the two `format!` raw strings,
with the computed values spliced in). -/
def headerWithBounds (b : Bounds) : String :=
  "<svg xmlns=\"http://www.w3.org/2000/svg\" xmlns:xlink=\"http://www.w3.org/1999/xlink\" \n            viewBox=\"0 0 1000 "
    ++ fmtFP (viewBoxH b)
    ++ "\" width=\"100%\" height=\"100%\" \n            preserveAspectRatio=\"xMidYMid meet\">"
    ++ "<g transform=\"scale(" ++ fmtFP (scaleXOf b) ++ ", " ++ fmtFP (scaleYOf b)
    ++ ") translate(" ++ fmtFP (translateXOf b) ++ ", " ++ fmtFP (translateYOf b)
    ++ ")\">"

/-- The fixed header emitted when `use_bounds` is off. -/
def headerFixed : String :=
  "<svg xmlns=\"http://www.w3.org/2000/svg\" viewBox=\"0 0 100 100\" xmlns:xlink=\"http://www.w3.org/1999/xlink\">"

/-- The background `<rect>` markup (emitted whenever
`background_color != "none"`). -/
def bgRectStr (options : SvgOptions) (b : Bounds) : String :=
  "<rect x=\"" ++ fmtFP (bgRectVals b).1
    ++ "\" y=\"" ++ fmtFP (bgRectVals b).2.1
    ++ "\" width=\"" ++ fmtFP (bgRectVals b).2.2.1
    ++ "\" height=\"" ++ fmtFP (bgRectVals b).2.2.2
    ++ "\" fill=\"" ++ options.background_color ++ "\"/>"

/-- The `<defs>` block pushed by the Leader arm (exact raw-string text,
newlines and indentation included). -/
def arrowheadDefs : String :=
  "<defs>\n                            <marker id=\"arrowhead\" markerWidth=\"10\" markerHeight=\"7\" \n                            refX=\"9\" refY=\"3.5\" orient=\"auto\">\n                                <polygon points=\"0 0, 10 3.5, 0 7\" fill=\"black\"/>\n                            </marker>\n                        </defs>"

/-- The needle of the Leader arm's guard:
`svg.contains("def id=\"arrowhead\"")`. -/
def arrowheadNeedle : String := "def id=\"arrowhead\""

/-- The stride-3 cubic-Bézier loop of the Spline arm
(`while i < points.len() - 2 { ...; i += 3 }`), fuel-bounded by the list
length, which bounds the iteration count. -/
def splineCurvesAux (points : List Pt) : Nat → Nat → String
  | _, 0 => ""
  | i, fuel + 1 =>
    if i < points.length - 2 then
      let p1 := points.getD i ⟨0, 0⟩
      let p2 := points.getD (i + 1) ⟨0, 0⟩
      let p3 := points.getD (i + 2) ⟨0, 0⟩
      "C " ++ fmt3 p1.x ++ "," ++ fmt3 p1.y ++ " "
        ++ fmt3 p2.x ++ "," ++ fmt3 p2.y ++ " "
        ++ fmt3 p3.x ++ "," ++ fmt3 p3.y ++ " "
        ++ splineCurvesAux points (i + 3) fuel
    else ""

/-- All cubic commands of the Spline arm, starting at index 1. -/
def splineCurves (points : List Pt) : String :=
  splineCurvesAux points 1 points.length

/-- Four `{:.3},{:.3}` corners of a `<polygon>`. -/
def polygonStr (q : QuadE) (stroke_attr : String) : String :=
  "<polygon points=\"" ++ fmt3 q.first_corner.x ++ "," ++ fmt3 q.first_corner.y
    ++ " " ++ fmt3 q.second_corner.x ++ "," ++ fmt3 q.second_corner.y
    ++ " " ++ fmt3 q.third_corner.x ++ "," ++ fmt3 q.third_corner.y
    ++ " " ++ fmt3 q.fourth_corner.x ++ "," ++ fmt3 q.fourth_corner.y
    ++ "\" " ++ stroke_attr ++ " />"

/-- One iteration of the render loop: takes the accumulated output and
appends this entity's markup (the Leader arm also reads the accumulated
output for its marker guard; an entity that is skipped returns the
accumulator unchanged). -/
def renderEntity (options : SvgOptions) (svg : String) (e : Entity) : String :=
  let color :=
    if (rustTrim e.color_name).data.isEmpty then options.default_color
    else e.color_name
  let stroke_attr := strokeAttrStr options color
  match e.specific with
  | .line l =>
    svg ++ ("<line x1=\"" ++ fmt3 l.p1.x ++ "\" y1=\"" ++ fmt3 l.p1.y
      ++ "\" x2=\"" ++ fmt3 l.p2.x ++ "\" y2=\"" ++ fmt3 l.p2.y
      ++ "\" " ++ stroke_attr ++ " fill=\"none\" />")
  | .insert ins =>
    svg ++ ("<use href=\"#" ++ ins.name
      ++ "\" x=\"" ++ fmt3 ins.location.x ++ "\" y=\"" ++ fmt3 ins.location.y
      ++ "\" width=\"" ++ fmt3 ins.x_scale_factor
      ++ "\" height=\"" ++ fmt3 ins.y_scale_factor ++ "\" />")
  | .lwPolyline lw =>
    if lw.vertices.isEmpty then svg
    else
      svg ++ ("<polyline points=\"" ++ joinSp (lw.vertices.map fmtPt)
        ++ "\" " ++ stroke_attr ++ " />")
  | .polyline pl =>
    if pl.vertices.isEmpty then svg
    else
      svg ++ ("<polyline points=\"" ++ joinSp (pl.vertices.map fmtPt)
        ++ "\" " ++ stroke_attr ++ " />")
  | .circle c =>
    svg ++ ("<circle cx=\"" ++ fmt3 c.center.x ++ "\" cy=\"" ++ fmt3 c.center.y
      ++ "\" r=\"" ++ fmt3 c.radius ++ "\" " ++ stroke_attr ++ " />")
  | .spline sp =>
    if sp.control_points.length < 2 then svg
    else
      let p0 := sp.control_points.getD 0 ⟨0, 0⟩
      let path := "M " ++ fmt3 p0.x ++ "," ++ fmt3 p0.y ++ " "
        ++ splineCurves sp.control_points
      svg ++ ("<path d=\"" ++ rustTrim path ++ "\" " ++ stroke_attr ++ " />")
  | .text t =>
    svg ++ ("<text x=\"" ++ fmt3 t.location.x ++ "\" y=\"" ++ fmt3 t.location.y
      ++ "\" " ++ stroke_attr ++ ">" ++ escape_xml_text t.value ++ "</text>")
  | .modelPoint p =>
    svg ++ ("<circle cx=\"" ++ fmt3 p.location.x ++ "\" cy=\"" ++ fmt3 p.location.y
      ++ "\" r=\"1\" " ++ stroke_attr ++ " />")
  | .face3D f => svg ++ polygonStr f stroke_attr
  | .solid s => svg ++ polygonStr s stroke_attr
  | .leader ld =>
    if ld.vertices.isEmpty then svg
    else
      let svg1 := svg ++ ("<polyline points=\"" ++ joinSp (ld.vertices.map fmtPt)
        ++ "\" " ++ stroke_attr ++ " marker-end=\"url(#arrowhead)\" />")
      if strContainsSub svg1 arrowheadNeedle then svg1
      else svg1 ++ arrowheadDefs
  | .trace t => svg ++ polygonStr t stroke_attr
  | .shape sh =>
    let half_size := sh.size / 2
    svg ++ ("<rect x=\"" ++ fmt3 (sh.location.x - half_size)
      ++ "\" y=\"" ++ fmt3 (sh.location.y - half_size)
      ++ "\" width=\"" ++ fmt3 sh.size ++ "\" height=\"" ++ fmt3 sh.size
      ++ "\" \n                    transform=\"rotate(" ++ fmt3 sh.rotation_angle
      ++ " " ++ fmtQ sh.location.x ++ " " ++ fmtQ sh.location.y ++ ")\" "
      ++ stroke_attr ++ " />")
  | .rotatedDimension dim =>
    let svg1 := svg ++ ("<line x1=\"" ++ fmtQ dim.definition_point_2.x
      ++ "\" y1=\"" ++ fmtQ dim.definition_point_2.y
      ++ "\" x2=\"" ++ fmtQ dim.definition_point_3.x
      ++ "\" y2=\"" ++ fmtQ dim.definition_point_3.y
      ++ "\" " ++ stroke_attr ++ " />")
    svg1 ++ ("<text x=\"" ++ fmtQ dim.insertion_point.x
      ++ "\" y=\"" ++ fmtQ dim.insertion_point.y
      ++ "\" " ++ stroke_attr
      ++ " font-size=\"12\" text-anchor=\"middle\">" ++ dim.text ++ "</text>")
  | .other _ => svg

/-- The render loop (`for entity in entities`), threading the accumulated
output. The `println!` diagnostic of the default arm goes to stdout, not
into the returned string, and is not modelled. -/
def renderLoop (options : SvgOptions) : List Entity → String → String
  | [], svg => svg
  | e :: rest, svg => renderLoop options rest (renderEntity options svg e)

/-- `dxf_to_svg(entities, options)` from the source. -/
def dxf_to_svg (entities : List Entity) (optionsIn : Option SvgOptions) : String :=
  let options := optionsIn.getD defaultOptions
  let bounds := paddedBounds entities options
  let svg0 := if options.use_bounds then headerWithBounds bounds else headerFixed
  let svg1 :=
    if options.background_color ≠ "none" then svg0 ++ bgRectStr options bounds
    else svg0
  let svg2 := renderLoop options entities svg1
  let svg3 := if options.use_bounds then svg2 ++ "</g>" else svg2
  svg3 ++ "</svg>"

/-- Is the entity of one of the three kinds `calculate_bounds` sends to its
default arm while `dxf_to_svg` still renders markup for it? -/
def isSIRKind : EntityType → Bool
  | .spline _ => true
  | .insert _ => true
  | .rotatedDimension _ => true
  | _ => false

/-- For a nonnegative dividend, Rust's truncating remainder by 2 agrees
with true mod-2 normalisation. -/
theorem rustRem_two_of_nonneg (a : ℚ) (h : 0 ≤ a) : rustRem a 2 = floorMod a 2 := by
  unfold rustRem floorMod ratTrunc
  rw [if_pos (by positivity)]

/-- `realTrunc` commutes with the cast from `ℚ` (both truncate toward 0). -/
theorem realTrunc_ratCast (q : ℚ) : realTrunc (q : ℝ) = ((ratTrunc q : ℤ) : ℝ) := by
  unfold realTrunc ratTrunc
  by_cases h : (0 : ℚ) ≤ q
  · rw [if_pos (by exact_mod_cast h), if_pos h, Rat.floor_cast]
  · rw [if_neg (by exact_mod_cast h), if_neg h, ← Rat.cast_neg, Rat.floor_cast]

/-- Rust `%` by `2π` of an angle `q·π` is `(q rem 2)·π`: the π-coefficient
embedding computes exactly the radian-level remainder. -/
theorem fmodReal_pi_scale (q : ℚ) :
    fmodReal ((q : ℝ) * Real.pi) (2 * Real.pi) = ((rustRem q 2 : ℚ) : ℝ) * Real.pi := by
  unfold fmodReal rustRem
  have hpi := Real.pi_pos
  have h2 : ((q : ℝ) * Real.pi) / (2 * Real.pi) = (((q / 2 : ℚ)) : ℝ) := by
    push_cast
    field_simp
    ring
  rw [h2, realTrunc_ratCast]
  push_cast
  ring

/-- An entity of one of the three ignored kinds leaves the bounds alone. -/
theorem boundsStep_sir (b : Bounds) (e : Entity) (h : isSIRKind e.specific = true) :
    boundsStep b e = b := by
  obtain ⟨cn, ly, s⟩ := e
  cases s <;> simp_all [boundsStep, isSIRKind]

/-- A list of ignored-kind entities leaves any starting bounds alone. -/
theorem calculate_bounds_from_sir (es : List Entity)
    (h : ∀ e ∈ es, isSIRKind e.specific = true) (b : Bounds) :
    calculate_bounds_from b es = b := by
  induction es generalizing b with
  | nil => rfl
  | cons e rest ih =>
    rw [calculate_bounds_from, boundsStep_sir b e (h e (List.mem_cons_self _ _))]
    exact ih (fun x hx => h x (List.mem_cons_of_mem _ hx)) b

/-- Claim C1 (status: code_bug). The claim says `dxf_to_svg` substitutes a
default canvas (0,0,100,100) when the computed bounds have non-finite or
negative width/height, so no non-finite value reaches the viewBox. The
code has no such guard: for the empty entity list with the default options
(`use_bounds = true`), width and height are `-inf`, the aspect ratio is
`(-inf)/(-inf) = NaN`, the fourth viewBox component is `1000/NaN = NaN`,
and the emitted document contains `viewBox="0 0 1000 NaN"`. -/
theorem empty_input_viewBox_nan :
    viewBoxH (paddedBounds [] defaultOptions) = FP.nan ∧
    strContainsSub (dxf_to_svg [] none) ("viewBox=\"0 0 1000 NaN\"") = true := by
  with_unfolding_all decide

/-- Claim C2 (status: code_bug). The guard searches the accumulated output
for `def id="arrowhead"`, but the block it inserts spells `<defs>` and
`<marker id="arrowhead" ...`, which never contains that needle — so the
guard never fires and the marker definition is inserted once per rendered
Leader: with two Leaders the output contains two copies. -/
theorem arrowhead_defs_inserted_per_leader :
    strContainsSub arrowheadDefs arrowheadNeedle = false ∧
    countList ("<marker id=\"arrowhead\"").data
      (dxf_to_svg
        [⟨"", "0", .leader ⟨[⟨0, 0⟩, ⟨1, 1⟩]⟩⟩, ⟨"", "0", .leader ⟨[⟨2, 2⟩, ⟨3, 3⟩]⟩⟩]
        (some ⟨false, 1/10, "none", 1, "black"⟩)).data = 2 := by
  with_unfolding_all decide

/-- Claim C3 (status: code_bug). `escape_xml_text` implements the
five-character table ("a<b" becomes "a&lt;b"), and the Text arm applies it,
but the RotatedDimension arm splices the measurement text into the `<text>`
element raw: the output contains the unescaped `>a<b</text>` and no
`&lt;` at all. -/
theorem dimension_measurement_text_unescaped :
    escape_xml_text ("a<b") = "a&lt;b" ∧
    strContainsSub
      (dxf_to_svg [⟨"", "0", .rotatedDimension ⟨⟨0, 0⟩, ⟨2, 0⟩, ⟨1, 0⟩, "a<b"⟩⟩]
        (some ⟨false, 1/10, "none", 1, "black"⟩)) (">a<b</text>") = true ∧
    strContainsSub
      (dxf_to_svg [⟨"", "0", .rotatedDimension ⟨⟨0, 0⟩, ⟨2, 0⟩, ⟨1, 0⟩, "a<b"⟩⟩]
        (some ⟨false, 1/10, "none", 1, "black"⟩)) ("&lt;") = false := by
  with_unfolding_all decide

/-- Claim C4, counterexample. The claim says every polyline with fewer than
2 points is skipped; but the code only skips *empty* polylines: an
LwPolyline with exactly one vertex still emits a `<polyline>` element. -/
theorem one_point_lwpolyline_still_rendered :
    strContainsSub
      (dxf_to_svg [⟨"", "0", .lwPolyline ⟨[⟨0, 0⟩]⟩⟩]
        (some ⟨false, 1/10, "none", 1, "black"⟩)) ("<polyline") = true := by
  with_unfolding_all decide

/-- Claim C4 as amended (status: corrected): a Spline with fewer than 2
control points is silently skipped, and an LwPolyline, Polyline or Leader
is silently skipped when it has zero vertices (with exactly one vertex it
is still rendered — see the counterexample); in every skipped case the
document is exactly the document of the remaining entities. -/
theorem degenerate_polyline_spline_leader_skipped
    (o : Option SvgOptions) (rest : List Entity) (cn ly : String)
    (sp : SplineE) (hsp : sp.control_points.length < 2)
    (lw : LwPolylineE) (hlw : lw.vertices = [])
    (pl : PolylineE) (hpl : pl.vertices = [])
    (ld : LeaderE) (hld : ld.vertices = []) :
    dxf_to_svg (⟨cn, ly, .spline sp⟩ :: rest) o = dxf_to_svg rest o ∧
    dxf_to_svg (⟨cn, ly, .lwPolyline lw⟩ :: rest) o = dxf_to_svg rest o ∧
    dxf_to_svg (⟨cn, ly, .polyline pl⟩ :: rest) o = dxf_to_svg rest o ∧
    dxf_to_svg (⟨cn, ly, .leader ld⟩ :: rest) o = dxf_to_svg rest o := by
  refine ⟨?_, ?_, ?_, ?_⟩
  · simp only [dxf_to_svg, paddedBounds, calculate_bounds, calculate_bounds_from,
      renderLoop, renderEntity, boundsStep, hsp, if_true]
  · simp only [dxf_to_svg, paddedBounds, calculate_bounds, calculate_bounds_from,
      renderLoop, renderEntity, boundsStep, updatePts, hlw, List.foldl_nil,
      List.isEmpty_nil, if_true]
  · simp only [dxf_to_svg, paddedBounds, calculate_bounds, calculate_bounds_from,
      renderLoop, renderEntity, boundsStep, updatePts, hpl, List.foldl_nil,
      List.isEmpty_nil, if_true]
  · simp only [dxf_to_svg, paddedBounds, calculate_bounds, calculate_bounds_from,
      renderLoop, renderEntity, boundsStep, updatePts, hld, List.foldl_nil,
      List.isEmpty_nil, if_true]

/-- Witness for C4's amended theorem at a concrete input. -/
theorem degenerate_polyline_spline_leader_skipped_witness :
    (SplineE.mk [⟨0, 0⟩]).control_points.length < 2 ∧
    dxf_to_svg [⟨"", "0", .spline ⟨[⟨0, 0⟩]⟩⟩] none = dxf_to_svg [] none ∧
    dxf_to_svg [⟨"", "0", .leader ⟨[]⟩⟩] none = dxf_to_svg [] none :=
  ⟨by decide,
   (degenerate_polyline_spline_leader_skipped none [] "" "0"
      ⟨[⟨0, 0⟩]⟩ (by decide) ⟨[]⟩ rfl ⟨[]⟩ rfl ⟨[]⟩ rfl).1,
   (degenerate_polyline_spline_leader_skipped none [] "" "0"
      ⟨[⟨0, 0⟩]⟩ (by decide) ⟨[]⟩ rfl ⟨[]⟩ rfl ⟨[]⟩ rfl).2.2.2⟩

/-- Claim C5 (status: confirmed). For every Arc the sweep flag is 1 exactly
when the end angle in radians exceeds the start angle, the large-arc flag
is 1 exactly when `|end − start|` (radians) mod `2π` — Rust's truncating
remainder, which on this nonnegative dividend is the true mod — exceeds
`π`, and the arc from 0 to π/2 radians (0° to 90°) gets large-arc 0 and
sweep 1. -/
theorem arc_flags_radian_semantics (sd ed : ℚ) :
    (arcSweepFlag sd ed = 1 ↔ degToRad sd < degToRad ed) ∧
    (arcLargeArcFlag sd ed = 1 ↔
      Real.pi < fmodReal |degToRad ed - degToRad sd| (2 * Real.pi)) ∧
    arcLargeArcFlag 0 90 = 0 ∧ arcSweepFlag 0 90 = 1 := by
  refine ⟨?_, ?_, by with_unfolding_all decide, by with_unfolding_all decide⟩
  · have key2 : toRadCoeff sd < toRadCoeff ed ↔ sd < ed := by
      unfold toRadCoeff
      exact div_lt_div_iff_of_pos_right (by norm_num)
    have key : degToRad sd < degToRad ed ↔ sd < ed := by
      unfold degToRad
      rw [div_lt_div_iff_of_pos_right (by norm_num : (0:ℝ) < 180),
        mul_lt_mul_right Real.pi_pos, Rat.cast_lt]
    unfold arcSweepFlag
    split_ifs with h
    · exact iff_of_true rfl (key.mpr (key2.mp h))
    · exact iff_of_false (by simp) (fun hc => h (key2.mpr (key.mp hc)))
  · have habs : |degToRad ed - degToRad sd|
        = ((|toRadCoeff ed - toRadCoeff sd| : ℚ) : ℝ) * Real.pi := by
      have h1 : degToRad ed - degToRad sd
          = ((toRadCoeff ed - toRadCoeff sd : ℚ) : ℝ) * Real.pi := by
        unfold degToRad toRadCoeff
        push_cast
        ring
      rw [h1, abs_mul, abs_of_pos Real.pi_pos, ← Rat.cast_abs]
    rw [habs, fmodReal_pi_scale _]
    unfold arcLargeArcFlag
    split_ifs with h
    · refine iff_of_true rfl ?_
      have hc : (1 : ℝ) < ((rustRem |toRadCoeff ed - toRadCoeff sd| 2 : ℚ) : ℝ) := by
        exact_mod_cast h
      calc Real.pi = 1 * Real.pi := (one_mul _).symm
        _ < _ := mul_lt_mul_of_pos_right hc Real.pi_pos
    · refine iff_of_false (by simp) (fun hc => h ?_)
      have h1 : (1 : ℝ) * Real.pi
          < ((rustRem |toRadCoeff ed - toRadCoeff sd| 2 : ℚ) : ℝ) * Real.pi := by
        rwa [one_mul]
      exact_mod_cast (mul_lt_mul_right Real.pi_pos).mp h1

/-- Claim C6, counterexample. The claim describes normalisation of all
three angles into [0, 2π); Rust `%` is a truncating remainder, which
leaves negative angles negative. At angle = −3π/2 (coefficient −3/2),
start = 0, end = π/2 the described algorithm answers inside (−3π/2 ≡ π/2),
the code answers outside. -/
theorem is_angle_in_arc_negative_angle_mismatch :
    is_angle_in_arc (-3/2) 0 (1/2) ≠ is_angle_in_arc_spec (-3/2) 0 (1/2) ∧
    is_angle_in_arc (-3/2) 0 (1/2) = false ∧
    is_angle_in_arc_spec (-3/2) 0 (1/2) = true := by
  with_unfolding_all decide

/-- Claim C6 as amended (status: corrected): for nonnegative angle, start
and end the function computes exactly the described normalise-and-compare
algorithm, and the boundary-crossing instances hold: for start = 3π/2,
end = π/2, angle 0 is inside and angle π is outside. -/
theorem is_angle_in_arc_nonneg_matches_spec :
    (∀ a s e : ℚ, 0 ≤ a → 0 ≤ s → 0 ≤ e →
      is_angle_in_arc a s e = is_angle_in_arc_spec a s e) ∧
    is_angle_in_arc 0 (3/2) (1/2) = true ∧
    is_angle_in_arc 1 (3/2) (1/2) = false := by
  refine ⟨fun a s e ha hs he => ?_,
    by with_unfolding_all decide, by with_unfolding_all decide⟩
  unfold is_angle_in_arc is_angle_in_arc_spec
  rw [rustRem_two_of_nonneg a ha, rustRem_two_of_nonneg s hs, rustRem_two_of_nonneg e he]

/-- Witness for C6's amended theorem at a concrete nonnegative input. -/
theorem is_angle_in_arc_nonneg_matches_spec_witness :
    (0 : ℚ) ≤ 1/2 ∧
    is_angle_in_arc (1/2) 0 1 = is_angle_in_arc_spec (1/2) 0 1 :=
  ⟨by norm_num,
   is_angle_in_arc_nonneg_matches_spec.1 (1/2) 0 1 (by norm_num) le_rfl (by norm_num)⟩

/-- Claim C7 (status: confirmed). With `use_bounds` on and padded bounds
that are finite with positive width and height, the viewBox is
`0 0 1000 h` with `h = 1000 / aspect_ratio`, `aspect_ratio = width/height`,
and the transform group scales by `(1000/width, -1000/width)` (same
magnitude, Y negated) and translates by `(-min_x, -max_y)`. The functions
below are exactly the values `dxf_to_svg` splices into the header. -/
theorem finite_bounds_viewBox_and_transform (es : List Entity) (o : SvgOptions)
    (mnx mny mxx mxy : ℚ)
    (h1 : (paddedBounds es o).min_x = .fin mnx)
    (h2 : (paddedBounds es o).min_y = .fin mny)
    (h3 : (paddedBounds es o).max_x = .fin mxx)
    (h4 : (paddedBounds es o).max_y = .fin mxy)
    (hw : 0 < mxx - mnx) (hh : 0 < mxy - mny) :
    viewBoxH (paddedBounds es o) = .fin (1000 / ((mxx - mnx) / (mxy - mny))) ∧
    scaleXOf (paddedBounds es o) = .fin (1000 / (mxx - mnx)) ∧
    scaleYOf (paddedBounds es o) = .fin ((-1000) / (mxx - mnx)) ∧
    translateXOf (paddedBounds es o) = .fin (-mnx) ∧
    translateYOf (paddedBounds es o) = .fin (-mxy) := by
  have hcw : contentWidth (paddedBounds es o) = .fin (mxx - mnx) := by
    rw [contentWidth, h3, h1]
    simp [FP.sub, FP.add, FP.neg, sub_eq_add_neg]
  have hch : contentHeight (paddedBounds es o) = .fin (mxy - mny) := by
    rw [contentHeight, h4, h2]
    simp [FP.sub, FP.add, FP.neg, sub_eq_add_neg]
  have hasp : aspectOf (paddedBounds es o) = .fin ((mxx - mnx) / (mxy - mny)) := by
    rw [aspectOf, hcw, hch]
    simp [FP.div, ne_of_gt hh]
  refine ⟨?_, ?_, ?_, ?_, ?_⟩
  · rw [viewBoxH, hasp]
    simp [FP.div, ne_of_gt (div_pos hw hh)]
  · rw [scaleXOf, hcw]
    simp [FP.div, ne_of_gt hw]
  · rw [scaleYOf, hcw]
    simp [FP.div, ne_of_gt hw]
  · rw [translateXOf, h1]; rfl
  · rw [translateYOf, h4]; rfl

/-- Witness for C7 at a concrete input: one line from (0,0) to (10,10)
with the default options (10% padding) has padded bounds (−1,−1,11,11). -/
theorem finite_bounds_viewBox_and_transform_witness :
    (0 : ℚ) < 11 - (-1) ∧
    scaleXOf (paddedBounds [⟨"", "0", .line ⟨⟨0, 0⟩, ⟨10, 10⟩⟩⟩] defaultOptions)
      = .fin (1000 / (11 - (-1))) ∧
    translateYOf (paddedBounds [⟨"", "0", .line ⟨⟨0, 0⟩, ⟨10, 10⟩⟩⟩] defaultOptions)
      = .fin (-11) :=
  ⟨by norm_num,
   (finite_bounds_viewBox_and_transform [⟨"", "0", .line ⟨⟨0, 0⟩, ⟨10, 10⟩⟩⟩]
      defaultOptions (-1) (-1) 11 11
      (by with_unfolding_all decide) (by with_unfolding_all decide)
      (by with_unfolding_all decide) (by with_unfolding_all decide)
      (by norm_num) (by norm_num)).2.1,
   (finite_bounds_viewBox_and_transform [⟨"", "0", .line ⟨⟨0, 0⟩, ⟨10, 10⟩⟩⟩]
      defaultOptions (-1) (-1) 11 11
      (by with_unfolding_all decide) (by with_unfolding_all decide)
      (by with_unfolding_all decide) (by with_unfolding_all decide)
      (by norm_num) (by norm_num)).2.2.2.2⟩

/-- Claim C8 (status: code_bug). The background rect's x/width do cover
min_x..max_x, and it is emitted exactly once (and not at all for "none"),
but its y is `-max_y`: it spans `[-max_y, -min_y]` vertically in the
coordinate space the transform maps, not `[min_y, max_y]` as the claim
(and the spec's "correctly positioned under the transform") require. For
one line from (0,1) to (10,2) with zero padding the padded bounds are
(0,1,10,2), yet the rect is `x=0 y=-2 w=10 h=1`, i.e. y-span [−2,−1]. -/
theorem background_rect_vertical_mismatch :
    bgRectVals (paddedBounds [⟨"", "0", .line ⟨⟨0, 1⟩, ⟨10, 2⟩⟩⟩] ⟨true, 0, "white", 1, "black"⟩)
      = (FP.fin 0, FP.fin (-2), FP.fin 10, FP.fin 1) ∧
    (paddedBounds [⟨"", "0", .line ⟨⟨0, 1⟩, ⟨10, 2⟩⟩⟩] ⟨true, 0, "white", 1, "black"⟩).min_y
      = FP.fin 1 ∧
    strContainsSub
      (dxf_to_svg [⟨"", "0", .line ⟨⟨0, 1⟩, ⟨10, 2⟩⟩⟩] (some ⟨true, 0, "white", 1, "black"⟩))
      ("<rect x=\"0\" y=\"-2\" width=\"10\" height=\"1\" fill=\"white\"/>") = true ∧
    countList ("<rect ").data
      (dxf_to_svg [⟨"", "0", .line ⟨⟨0, 1⟩, ⟨10, 2⟩⟩⟩]
        (some ⟨true, 0, "white", 1, "black"⟩)).data = 1 ∧
    strContainsSub
      (dxf_to_svg [⟨"", "0", .line ⟨⟨0, 1⟩, ⟨10, 2⟩⟩⟩] (some ⟨true, 0, "none", 1, "black"⟩))
      ("<rect") = false := by
  with_unfolding_all decide

/-- Claim C9 (status: confirmed). The worked escaping example holds, and
escaping is not idempotent: re-escaping "&" double-escapes the ampersand. -/
theorem escape_xml_example_and_double_escape :
    escape_xml_text ("Test & <example>") = "Test &amp; &lt;example&gt;" ∧
    escape_xml_text (escape_xml_text ("&")) ≠ escape_xml_text ("&") := by
  with_unfolding_all decide

/-- Claim C10 (status: confirmed). `calculate_bounds` ignores Spline,
Insert and RotatedDimension (they reach its default arm): any list of
only these kinds yields the degenerate empty bounds, so with
`use_bounds = true` the padded bounds — and hence the computed viewBox —
equal those of the empty list; yet the renderer emits markup for all
three kinds. -/
theorem bounds_ignore_spline_insert_dimension (es : List Entity)
    (h : ∀ e ∈ es, isSIRKind e.specific = true) :
    calculate_bounds es = Bounds.new ∧
    (∀ o, paddedBounds es o = paddedBounds [] o) ∧
    (∀ o, viewBoxH (paddedBounds es o) = viewBoxH (paddedBounds [] o)) ∧
    renderEntity defaultOptions "" ⟨"", "0", .spline ⟨[⟨0, 0⟩, ⟨1, 1⟩]⟩⟩ ≠ "" ∧
    renderEntity defaultOptions "" ⟨"", "0", .insert ⟨"BLOCK", ⟨0, 0⟩, 1, 1⟩⟩ ≠ "" ∧
    renderEntity defaultOptions ""
      ⟨"", "0", .rotatedDimension ⟨⟨0, 0⟩, ⟨2, 0⟩, ⟨1, 0⟩, "5"⟩⟩ ≠ "" := by
  have hb : calculate_bounds es = Bounds.new := calculate_bounds_from_sir es h Bounds.new
  refine ⟨hb, fun o => ?_, fun o => ?_, ?_, ?_, ?_⟩
  · rw [paddedBounds, paddedBounds, hb]; rfl
  · rw [paddedBounds, paddedBounds, hb]; rfl
  · with_unfolding_all decide
  · with_unfolding_all decide
  · with_unfolding_all decide

/-- Witness for C10 at a concrete list of the three ignored kinds. -/
theorem bounds_ignore_spline_insert_dimension_witness :
    (∀ e ∈ ([⟨"", "0", .spline ⟨[⟨0, 0⟩, ⟨1, 1⟩]⟩⟩,
        ⟨"", "0", .insert ⟨"BLOCK", ⟨0, 0⟩, 1, 1⟩⟩,
        ⟨"", "0", .rotatedDimension ⟨⟨0, 0⟩, ⟨2, 0⟩, ⟨1, 0⟩, "5"⟩⟩] : List Entity),
      isSIRKind e.specific = true) ∧
    calculate_bounds
      [⟨"", "0", .spline ⟨[⟨0, 0⟩, ⟨1, 1⟩]⟩⟩,
       ⟨"", "0", .insert ⟨"BLOCK", ⟨0, 0⟩, 1, 1⟩⟩,
       ⟨"", "0", .rotatedDimension ⟨⟨0, 0⟩, ⟨2, 0⟩, ⟨1, 0⟩, "5"⟩⟩] = Bounds.new :=
  ⟨by decide,
   (bounds_ignore_spline_insert_dimension _ (by decide)).1⟩
